import Mathlib

/-!
# Verification of the py101ru radio-playlist pipeline

A shallow embedding of `src/py101ru.py` (a script that resolves radio-station
genres, stations, stream candidates from 101.ru and writes an `.m3u` playlist)
together with proofs settling the specification claims.

Network effects are modelled by passing, as parameters, the outcome each
network call would observe (`UrlEvent` per URL); Python exceptions that the
source raises or catches are modelled with `Except`.  String manipulation is
modelled over `String` with explicit, kernel-reducible helpers that mirror the
Python `str` methods used by the source (`split` on a one-character separator,
`strip`, `startswith`).
-/

set_option autoImplicit false

namespace Py101

/-! ## Python string-method models -/

/-- Auxiliary for `pySplit`: split a character list at every occurrence of
separator `c`, mirroring Python `str.split(sep)` (always at least one piece). -/
def splitOnCharAux (c : Char) : List Char → List (List Char)
  | [] => [[]]
  | ch :: rest =>
    let r := splitOnCharAux c rest
    if ch = c then [] :: r
    else
      match r with
      | [] => [[ch]]
      | a :: t => (ch :: a) :: t

/-- Model of Python `s.split(c)` for a one-character separator `c`. -/
def pySplit (c : Char) (s : String) : List String :=
  (splitOnCharAux c s.data).map (fun l => ⟨l⟩)

/-- Model of Python `s.strip()`: remove leading and trailing whitespace. -/
def pyStrip (s : String) : String :=
  ⟨((s.data.dropWhile Char.isWhitespace).reverse.dropWhile Char.isWhitespace).reverse⟩

/-- Auxiliary for `pyStartsWith` on character lists. -/
def charsStartWith : List Char → List Char → Bool
  | _, [] => true
  | [], _ :: _ => false
  | a :: as, b :: bs => a = b && charsStartWith as bs

/-- Model of Python `s.startswith(p)`. -/
def pyStartsWith (s p : String) : Bool :=
  charsStartWith s.data p.data

/-- Model of Python `s.split(c)[-1]` (the list returned by `split` is never
empty, so negative indexing takes its last element). -/
def lastSeg (c : Char) (s : String) : String :=
  (pySplit c s).getLastD ""

/-! ## Transport: `get_page`

`get_page(url, data_enable, timeout)` performs one `urllib.request.urlopen`
call.  The outcome of that call is modelled by `UrlEvent`: either `urlopen`
returns a response object (only then are `getcode()`/`read().decode()`
available), or it raises one of the exception classes the source names in its
`except` clauses. -/

/-- Outcome of the single `urlopen` attempt inside `get_page`. -/
inductive UrlEvent where
  /-- `urlopen` returned normally: a response with this status and body text. -/
  | success (code : Nat) (body : String)
  /-- `urllib.error.HTTPError` with `e.code` and `e.reason`. -/
  | httpError (code : Nat) (reason : String)
  /-- `urllib.error.URLError` (DNS, TLS, connection refused, timeout) with
  `e.reason`. -/
  | urlError (reason : String)
  /-- `ValueError` (malformed URL / invalid argument) rendered as `{e}`. -/
  | valueError (msg : String)
  deriving DecidableEq, Repr

/-- The Python exception classes named by `get_page`'s `except` clauses. -/
inductive PyExc where
  | httpError (code : Nat) (reason : String)
  | urlError (reason : String)
  | valueError (msg : String)
  deriving DecidableEq, Repr

/-- The `try`-block body of `get_page`: `urlopen` either yields
`(conn.getcode(), conn.read().decode())` or raises. -/
def urlopenRun (ev : UrlEvent) : Except PyExc (Nat × String) :=
  match ev with
  | .success c b => .ok (c, b)
  | .httpError c r => .error (.httpError c r)
  | .urlError r => .error (.urlError r)
  | .valueError m => .error (.valueError m)

/-- `get_page` as written: the `try` body may raise, and each `except` clause
turns one exception class into a returned `(code, data)` pair.  A `.error`
result would mean an exception escaped `get_page`. -/
def get_page_tryBody (ev : UrlEvent) (data_enable : Bool) :
    Except PyExc (Nat × Option String) :=
  match urlopenRun ev with
  | .ok (c, b) => .ok (c, if data_enable then some b else none)
  | .error (.httpError c r) => .ok (c, some ("[-] HTTP Error: " ++ r))
  | .error (.urlError r) => .ok (404, some ("[-] URL Error: " ++ r))
  | .error (.valueError m) => .ok (404, some ("[-] Value Error: " ++ m))

/-- The observable behaviour of `get_page`: initial `code = 404`, `data = None`,
then the `try`/`except` ladder, then `return code, data`. -/
def get_page (ev : UrlEvent) (data_enable : Bool) : Nat × Option String :=
  match ev with
  | .success c b => (c, if data_enable then some b else none)
  | .httpError c r => (c, some ("[-] HTTP Error: " ++ r))
  | .urlError r => (404, some ("[-] URL Error: " ++ r))
  | .valueError m => (404, some ("[-] Value Error: " ++ m))

/-! ## Claims C3, C4, C5 about `get_page` -/

/-- **C3, counterexample.** The claim says the status returned on a
protocol-level failure is "distinct from every real HTTP status code".  The
source initialises `code = 404` and leaves it unchanged on `URLError`, so the
sentinel coincides with the status of a genuine HTTP `404 Not Found` response. -/
theorem get_page_urlError_sentinel_is_404 :
    (get_page (.urlError "connection timed out") true).1 = 404 ∧
      (get_page (.httpError 404 "Not Found") true).1 = 404 := by
  exact ⟨rfl, rfl⟩

/-- **C3, amended.** On a protocol-level failure before a status is obtained
(`URLError`: DNS, TLS, connection refused, timeout), `get_page` returns status
`404` — the initial value of `code`, which coincides with the real HTTP
Not Found code rather than being distinct from all real codes — together with
the error description `"[-] URL Error: <reason>"` carrying the underlying
reason, for either value of `data_enable`. -/
theorem get_page_urlError (reason : String) (data_enable : Bool) :
    get_page (.urlError reason) data_enable =
      (404, some ("[-] URL Error: " ++ reason)) := rfl

/-- **C4, counterexample.** The claim says that when the request completes with
an HTTP response, the payload is the decoded body text if `wantBody` is true
and null if `wantBody` is false, regardless of status.  But a non-2xx response
surfaces as `urllib.error.HTTPError`, whose handler ignores `data_enable` and
stores the error description: with `wantBody = false` the payload is not null
(and with `wantBody = true` it is the error text, not the body). -/
theorem get_page_httpError_payload_not_null :
    get_page (.httpError 503 "Service Unavailable") false =
      (503, some ("[-] HTTP Error: Service Unavailable")) ∧
      (get_page (.httpError 503 "Service Unavailable") false).2 ≠ none := by
  exact ⟨rfl, by simp [get_page]⟩

/-- **C4, amended.** For a request that completes with an HTTP response:
`get_page` returns that response's status code in both cases; when `urlopen`
returns the response normally the payload is the decoded body text if
`data_enable` is true and null otherwise, but when the response surfaces as
`HTTPError` (non-2xx) the payload is `"[-] HTTP Error: <reason>"` regardless of
`data_enable`. -/
theorem get_page_http_response (c : Nat) (b r : String) (data_enable : Bool) :
    get_page (.success c b) data_enable =
      (c, if data_enable then some b else none) ∧
    get_page (.httpError c r) data_enable =
      (c, some ("[-] HTTP Error: " ++ r)) := ⟨rfl, rfl⟩

/-- **C5, confirmed.** `get_page` never lets an exception escape: for every
modelled `urlopen` outcome and every `data_enable` flag, the `try`/`except`
ladder catches each exception class it can observe and returns the
`(code, payload-or-error-description)` pair computed by `get_page`. -/
theorem get_page_total (ev : UrlEvent) (data_enable : Bool) :
    get_page_tryBody ev data_enable = .ok (get_page ev data_enable) := by
  cases ev <;> rfl

/-! ## ChannelResolver: `get_channel_info` and `get_channel_streams`

The JSON metadata endpoint returns `{"status": ..., "result": [{"titleChannel":
..., "urlStream": ...}, ...]}`.  A decoded body is modelled by `ApiResponse`
(`status` is `Option Int` so that an absent field is representable; the
per-item fields the source accesses are modelled as present).  The network is
a function `mnet` from the station number (the varying part of the endpoint
URL `{CHANNEL_SERVERS_URL}/{number}/channel/`) to the `UrlEvent` that call
observes, and `dec` models `json.loads`: `none` means the body is not valid
JSON and `json.loads` raises `JSONDecodeError`. -/

/-- One item of the metadata response's `result` array. -/
structure StreamItem where
  titleChannel : String
  urlStream : String
  deriving DecidableEq, Repr

/-- A successfully decoded metadata response body. -/
structure ApiResponse where
  status : Option Int
  result : List StreamItem
  deriving DecidableEq, Repr

/-- The Python value `get_channel_info` returns: the decoded dict when the
status was 200, otherwise whatever `data` was (an error string, or `None`). -/
inductive InfoVal where
  | dict (r : ApiResponse)
  | raw (data : Option String)
  deriving DecidableEq, Repr

/-- Uncaught Python exceptions the per-station pipeline can raise. -/
inductive Fault where
  /-- `json.loads` on a body that is not valid JSON. -/
  | jsonDecodeError
  /-- `json.loads(None)` (unreachable: `get_page` with `data_enable=True`
  never pairs code 200 with `None`). -/
  | typeError
  /-- `.get('status')` called on a `str` or `None` value. -/
  | attributeError
  /-- `info['result'][0]` on an empty `result` list. -/
  | indexError
  deriving DecidableEq, Repr

/-- `{'title': ..., 'stream': [...]}` as appended to the result list of
`get_channel_streams`. -/
structure ChannelRecord where
  title : String
  stream : List String
  deriving DecidableEq, Repr

/-- `get_channel_info(url)`: take the trailing `/`-segment as the station
number, fetch the metadata endpoint, and return `json.loads(data) if code ==
200 else data`.  A `.error` result is a raised exception. -/
def get_channel_info (dec : String → Option ApiResponse)
    (mnet : String → UrlEvent) (url : String) : Except Fault InfoVal :=
  let number := lastSeg '/' url
  let res := get_page (mnet number) true
  if res.1 = 200 then
    match res.2 with
    | some body =>
      match dec body with
      | some r => .ok (.dict r)
      | none => .error .jsonDecodeError
    | none => .error .typeError
  else
    .ok (.raw res.2)

/-- The body of the `if` in `get_channel_streams`'s loop, applied to the value
`info`: test `info.get('status') is not None and info.get('status') == 1` and,
when it holds, build the channel record from `info['result'][0]['titleChannel']`
and `[x['urlStream'].split('?')[0] for x in info['result']]`.  Calling `.get`
on a non-dict raises `AttributeError`; indexing an empty `result` raises
`IndexError`. -/
def processInfo (info : InfoVal) : Except Fault (Option ChannelRecord) :=
  match info with
  | .raw _ => .error .attributeError
  | .dict r =>
    if r.status.isSome ∧ r.status = some 1 then
      match r.result with
      | [] => .error .indexError
      | first :: rest =>
        .ok (some { title := first.titleChannel,
                    stream := (first :: rest).map
                      (fun x => (pySplit '?' x.urlStream).headD "") })
    else
      .ok none

/-- One iteration of `get_channel_streams`'s loop on station URL `ch`:
`ch_num = ch.split('/')[-1]`, then `get_channel_info(ch_num)`, then the
status test and record construction.  `.ok none` means the station produced
no record and the loop moves on; `.error` is an uncaught exception. -/
def processStation (dec : String → Option ApiResponse)
    (mnet : String → UrlEvent) (ch : String) : Except Fault (Option ChannelRecord) :=
  let ch_num := lastSeg '/' ch
  match get_channel_info dec mnet ch_num with
  | .error f => .error f
  | .ok info => processInfo info

/-- `get_channel_streams` iterated over the station URLs (in the iteration
order of the set built by `get_stations_url`): each station either appends a
record, appends nothing, or raises — and a raised exception aborts the whole
loop. -/
def get_channel_streams (dec : String → Option ApiResponse)
    (mnet : String → UrlEvent) : List String → Except Fault (List ChannelRecord)
  | [] => .ok []
  | ch :: rest =>
    match processStation dec mnet ch with
    | .error f => .error f
    | .ok none => get_channel_streams dec mnet rest
    | .ok (some rec) =>
      match get_channel_streams dec mnet rest with
      | .error f => .error f
      | .ok rs => .ok (rec :: rs)

/-! ## Concrete network fixtures used to exercise the station loop -/

/-- Decoder fixture: the body `"GOOD"` decodes to a live response with one
stream item; every other body fails to decode. -/
def demoDec : String → Option ApiResponse := fun body =>
  if body = "GOOD" then some ⟨some 1, [⟨"T", "http://u?q"⟩]⟩ else none

/-- Network fixture: station number `1`'s metadata call gets HTTP 500; every
other station gets a 200 response with decodable body. -/
def demoNetHttpFail : String → UrlEvent := fun n =>
  if n = "1" then .httpError 500 "Internal Server Error" else .success 200 "GOOD"

/-- Network fixture: station number `1`'s metadata call gets a 200 response
whose body is not valid JSON; every other station a decodable one. -/
def demoNetBadJson : String → UrlEvent := fun n =>
  if n = "1" then .success 200 "BAD" else .success 200 "GOOD"

/-! ## Claims C1, C6, C10 about the per-station loop -/

/-- **C1, counterexample.** The claim says a station whose metadata call fails
(non-success status, or undecodable body) is skipped and the loop continues.
In the code, a non-200 status makes `get_channel_info` return the error
*string*, on which `.get('status')` raises `AttributeError`; an undecodable
body makes `json.loads` raise.  Here station `st/1` fails while `st/2` alone
would produce a record, yet the whole run aborts with the exception and no
record list is produced. -/
theorem get_channel_streams_no_skip :
    get_channel_streams demoDec demoNetHttpFail ["st/1", "st/2"] =
      .error .attributeError ∧
    get_channel_streams demoDec demoNetBadJson ["st/1", "st/2"] =
      .error .jsonDecodeError ∧
    processStation demoDec demoNetHttpFail "st/2" =
      .ok (some ⟨"T", ["http://u"]⟩) := ⟨rfl, rfl, rfl⟩

/-- Stations that fault abort the loop: helper for the amended C1. -/
theorem get_channel_streams_error_of_mem (dec : String → Option ApiResponse)
    (mnet : String → UrlEvent) (st : String) (f : Fault) (post : List String)
    (hst : processStation dec mnet st = .error f) :
    ∀ pre : List String, (∀ s ∈ pre, ∃ v, processStation dec mnet s = .ok v) →
      get_channel_streams dec mnet (pre ++ st :: post) = .error f := by
  intro pre
  induction pre with
  | nil =>
    intro _
    simp only [List.nil_append, get_channel_streams, hst]
  | cons s pre ih =>
    intro hpre
    obtain ⟨v, hv⟩ := hpre s (List.mem_cons_self s pre)
    have htail := ih (fun s' hs' => hpre s' (List.mem_cons_of_mem s hs'))
    cases v with
    | none => simpa [get_channel_streams, hv] using htail
    | some rec => simp [get_channel_streams, hv, htail]

/-- **C1, amended.** A station whose metadata call returns a non-success
status, or a 200 response whose body cannot be decoded as JSON, is *not*
skipped: the loop raises an uncaught exception (`AttributeError` from calling
`.get` on the error string, resp. `JSONDecodeError` from `json.loads`) and the
whole run aborts, so no station after it is processed and no record list is
returned. -/
theorem get_channel_streams_station_failure_aborts
    (dec : String → Option ApiResponse) (mnet : String → UrlEvent)
    (pre post : List String) (st : String)
    (hpre : ∀ s ∈ pre, ∃ v, processStation dec mnet s = .ok v) :
    ((get_page (mnet (lastSeg '/' (lastSeg '/' st))) true).1 ≠ 200 →
      get_channel_streams dec mnet (pre ++ st :: post) = .error .attributeError) ∧
    (∀ body, get_page (mnet (lastSeg '/' (lastSeg '/' st))) true = (200, some body) →
      dec body = none →
      get_channel_streams dec mnet (pre ++ st :: post) = .error .jsonDecodeError) := by
  constructor
  · intro hcode
    have hst : processStation dec mnet st = .error .attributeError := by
      unfold processStation get_channel_info
      simp only [if_neg hcode]
      rfl
    exact get_channel_streams_error_of_mem dec mnet st _ post hst pre hpre
  · intro body hpage hdec
    have hst : processStation dec mnet st = .error .jsonDecodeError := by
      simp [processStation, get_channel_info, hpage, hdec]
    exact get_channel_streams_error_of_mem dec mnet st _ post hst pre hpre

/-- Witness for the amended C1 at a concrete input: one healthy station before
the failing one, one after; the run aborts with `AttributeError`. -/
theorem get_channel_streams_station_failure_aborts_witness :
    get_channel_streams demoDec demoNetHttpFail ["st/0", "st/1", "st/2"] =
      .error .attributeError :=
  (get_channel_streams_station_failure_aborts demoDec demoNetHttpFail
    ["st/0"] ["st/2"] "st/1"
    (fun s hs => by
      simp only [List.mem_singleton] at hs
      exact ⟨some ⟨"T", ["http://u"]⟩, by rw [hs]; rfl⟩)).1 (by decide)

/-- **C6, counterexample.** The claim says a record is built exactly when
`status = 1`.  A decoded response with `status = 1` and an empty `result` list
builds no record: it raises `IndexError` instead (contrast: `status = 0` with
the same empty list yields absent with no failure). -/
theorem processInfo_live_empty_result :
    processInfo (.dict ⟨some 1, []⟩) = .error .indexError ∧
    processInfo (.dict ⟨some 0, []⟩) = .ok none := ⟨rfl, rfl⟩

/-- **C6, amended.** For every successfully decoded metadata response whose
`result` list is non-empty, a channel record is built exactly when the `status`
field equals 1; any other status value, including an absent field, yields
absent (no record, no failure).  When built, the record's title is the first
result item's `titleChannel` and its stream list is every item's `urlStream`
with any `?query` suffix truncated, in the API's item order.  (A `status = 1`
response with an empty `result` list instead faults; see the unguarded-index
claim.) -/
theorem processInfo_spec (r : ApiResponse) (first : StreamItem)
    (rest : List StreamItem) (hres : r.result = first :: rest) :
    (r.status = some 1 →
      processInfo (.dict r) = .ok (some
        { title := first.titleChannel,
          stream := (first :: rest).map
            (fun x => (pySplit '?' x.urlStream).headD "") })) ∧
    (r.status ≠ some 1 → processInfo (.dict r) = .ok none) ∧
    (∀ rec, processInfo (.dict r) = .ok (some rec) → r.status = some 1) := by
  refine ⟨fun hs => ?_, fun hs => ?_, fun rec h => ?_⟩
  · simp only [processInfo, hres, hs]
    simp
  · have : ¬ (r.status.isSome ∧ r.status = some 1) := fun ⟨_, h1⟩ => hs h1
    simp only [processInfo, if_neg this]
  · by_contra hs
    have : ¬ (r.status.isSome ∧ r.status = some 1) := fun ⟨_, h1⟩ => hs h1
    simp only [processInfo, if_neg this] at h
    exact Option.noConfusion (Except.ok.inj h)

/-- Witness for the amended C6: a live response with one item whose stream URL
carries a query string yields the record with the query truncated; flipping the
status to 0 yields absent. -/
theorem processInfo_spec_witness :
    processInfo (.dict ⟨some 1, [⟨"Jazz", "http://stream/a?abc"⟩]⟩) =
      .ok (some ⟨"Jazz", ["http://stream/a"]⟩) ∧
    processInfo (.dict ⟨some 0, [⟨"Jazz", "http://stream/a?abc"⟩]⟩) = .ok none := by
  constructor
  · rw [(processInfo_spec ⟨some 1, [⟨"Jazz", "http://stream/a?abc"⟩]⟩
      ⟨"Jazz", "http://stream/a?abc"⟩ [] rfl).1 rfl]
    rfl
  · exact (processInfo_spec ⟨some 0, [⟨"Jazz", "http://stream/a?abc"⟩]⟩
      ⟨"Jazz", "http://stream/a?abc"⟩ [] rfl).2.1 (by decide)

/-- **C10, confirmed.** Record construction reads the title through an
unguarded index into `result[0]`: for a decoded response with `status = 1` it
is fault-free exactly when `result` is non-empty, and an empty `result` list
reaches the `IndexError` branch instead of yielding absent. -/
theorem processInfo_unguarded_index (r : ApiResponse) (h : r.status = some 1) :
    (r.result = [] → processInfo (.dict r) = .error .indexError) ∧
    (r.result ≠ [] → ∃ rec, processInfo (.dict r) = .ok (some rec)) := by
  constructor
  · intro hres
    simp only [processInfo, hres, h]
    simp
  · intro hres
    match hr : r.result with
    | [] => exact absurd hr hres
    | first :: rest =>
      refine ⟨⟨first.titleChannel, (first :: rest).map
        (fun x => (pySplit '?' x.urlStream).headD "")⟩, ?_⟩
      simp only [processInfo, hr, h]
      simp

/-- Witness for C10: the live-but-empty response faults with `IndexError`. -/
theorem processInfo_unguarded_index_witness :
    processInfo (.dict ⟨some 1, []⟩) = .error .indexError :=
  (processInfo_unguarded_index ⟨some 1, []⟩ rfl).1 rfl

/-! ## StreamValidator and PlaylistAssembler: `make_m3u`

`make_m3u(name, channels)` opens `{name}.m3u`, writes the `#EXTM3U` header,
and for each channel probes its stream candidates in order with
`get_page(s, False)`, writing an `#EXTINF` block for the first candidate that
answers 200 and logging `[-] ERROR: {title}` for channels with no working
candidate.  The file-system side is modelled as the written text (first
component) plus the list of printed error lines (second component); `net`
gives the `UrlEvent` each probed URL observes. -/

/-- The status code `get_page(s, False)` reports for stream URL `s`. -/
def probeStatus (net : String → UrlEvent) (s : String) : Nat :=
  (get_page (net s) false).1

/-- The candidate loop of `make_m3u`: `code = 404`; probe only when
`s.startswith('http')`; select the first candidate with `code == 200` and
`break`. -/
def findActive (net : String → UrlEvent) : List String → Option String
  | [] => none
  | s :: rest =>
    let code := if pyStartsWith s "http" then probeStatus net s else 404
    if code = 200 then some s else findActive net rest

/-- The candidates on which the loop of `make_m3u` actually calls `get_page`,
in call order: non-`http` candidates are skipped without a call, and the loop
breaks right after a candidate answers 200. -/
def probedStreams (net : String → UrlEvent) : List String → List String
  | [] => []
  | s :: rest =>
    if pyStartsWith s "http" then
      if probeStatus net s = 200 then [s]
      else s :: probedStreams net rest
    else
      probedStreams net rest

/-- A candidate the loop would accept: an `http(s)` URL whose probe answers
status 200. -/
def StreamOk (net : String → UrlEvent) (s : String) : Prop :=
  pyStartsWith s "http" = true ∧ probeStatus net s = 200

instance (net : String → UrlEvent) (s : String) : Decidable (StreamOk net s) :=
  inferInstanceAs (Decidable (_ ∧ _))

/-- The text `m3u.write(f'#EXTINF: {i}, {title}\n{activeStream}\n')` emits. -/
def extinfLine (i : Nat) (title url : String) : String :=
  "#EXTINF: " ++ toString i ++ ", " ++ title ++ "\n" ++ url ++ "\n"

/-- The channel loop of `make_m3u`, carrying the counter `i`: a channel whose
`active_stream` ends up falsy (`None`, or `''`, though `findActive` never
selects `''`) prints its error line and does not bump `i`; otherwise the
`#EXTINF` block for index `i` is written and `i` is incremented.  Returns the
text written after the header and the printed error lines. -/
def m3uLoop (net : String → UrlEvent) : List ChannelRecord → Nat → String × List String
  | [], _ => ("", [])
  | val :: rest, i =>
    let activeStream := findActive net val.stream
    if activeStream.getD "" = "" then
      let r := m3uLoop net rest i
      (r.1, ("[-] ERROR: " ++ val.title) :: r.2)
    else
      let r := m3uLoop net rest (i + 1)
      (extinfLine i val.title (activeStream.getD "") ++ r.1, r.2)

/-- `make_m3u`: header line, then the channel loop starting at `i = 0`. -/
def make_m3u (net : String → UrlEvent) (channels : List ChannelRecord) :
    String × List String :=
  let r := m3uLoop net channels 0
  ("#EXTM3U\n" ++ r.1, r.2)

/-! ## Claim C2: first-success selection, short-circuit -/

/-- **C2, confirmed.** When the validator loop selects `a` for a channel's
candidate list `l`, then `a ∈ l`, `a` is an `http` URL whose probe answered
200, every candidate listed before `a` failed, and the probes actually issued
are exactly the `http` candidates before `a` followed by `a` itself — no
candidate after `a` is ever probed. -/
theorem findActive_first_success (net : String → UrlEvent) (l : List String)
    (a : String) (h : findActive net l = some a) :
    a ∈ l ∧ StreamOk net a ∧
      ∃ l₁ l₂, l = l₁ ++ a :: l₂ ∧ (∀ b ∈ l₁, ¬ StreamOk net b) ∧
        probedStreams net l = l₁.filter (fun s => pyStartsWith s "http") ++ [a] := by
  induction l with
  | nil => simp [findActive] at h
  | cons s rest ih =>
    by_cases hsw : pyStartsWith s "http" = true
    · by_cases hps : probeStatus net s = 200
      · have ha : a = s := by
          simp [findActive, hsw, hps] at h
          exact h.symm
        subst ha
        refine ⟨List.mem_cons_self _ _, ⟨hsw, hps⟩, [], rest, rfl, by simp, ?_⟩
        simp [probedStreams, hsw, hps]
      · have h' : findActive net rest = some a := by
          simpa [findActive, hsw, hps] using h
        obtain ⟨hmem, hok, l₁, l₂, heq, hfail, hprobe⟩ := ih h'
        refine ⟨List.mem_cons_of_mem _ hmem, hok, s :: l₁, l₂, by rw [heq]; rfl,
          ?_, ?_⟩
        · intro b hb
          rcases List.mem_cons.1 hb with hb | hb
          · exact hb ▸ fun hko => hps hko.2
          · exact hfail b hb
        · simp [probedStreams, hsw, hps, hprobe, List.filter_cons]
    · have h' : findActive net rest = some a := by
        simpa [findActive, hsw] using h
      obtain ⟨hmem, hok, l₁, l₂, heq, hfail, hprobe⟩ := ih h'
      refine ⟨List.mem_cons_of_mem _ hmem, hok, s :: l₁, l₂, by rw [heq]; rfl,
        ?_, ?_⟩
      · intro b hb
        rcases List.mem_cons.1 hb with hb | hb
        · exact hb ▸ fun hko => hsw hko.1
        · exact hfail b hb
      · simp [probedStreams, hsw, hprobe, List.filter_cons]

/-- Probe fixture for the validator claims: only `http://good` and
`http://later` answer 200; every other URL is unreachable. -/
def demoProbeNet : String → UrlEvent := fun s =>
  if s = "http://good" ∨ s = "http://later" then .success 200 "" else .urlError "refused"

/-- Witness for C2 on the list `[ftp://x, http://bad, http://good,
http://later]`: the selected stream is `http://good`, the earlier candidates
failed, and `http://later` is never probed. -/
theorem findActive_first_success_witness :
    "http://good" ∈ (["ftp://x", "http://bad", "http://good", "http://later"] : List String) ∧
    StreamOk demoProbeNet "http://good" ∧
      ∃ l₁ l₂,
        (["ftp://x", "http://bad", "http://good", "http://later"] : List String) =
          l₁ ++ "http://good" :: l₂ ∧
        (∀ b ∈ l₁, ¬ StreamOk demoProbeNet b) ∧
        probedStreams demoProbeNet ["ftp://x", "http://bad", "http://good", "http://later"] =
          l₁.filter (fun s => pyStartsWith s "http") ++ ["http://good"] :=
  findActive_first_success demoProbeNet _ "http://good" (by decide)

/-! ## Claim C7: playlist layout -/

/-- Pair each list element with its zero-based position, starting at `i`:
the value of the counter `i` of `make_m3u` at each channel when no channel
is dropped. -/
def withIdx {α : Type} : Nat → List α → List (Nat × α)
  | _, [] => []
  | i, x :: xs => (i, x) :: withIdx (i + 1) xs

/-- Concatenation of a list of strings (the text the loop writes, block by
block). -/
def concatAll : List String → String
  | [] => ""
  | s :: rest => s ++ concatAll rest

theorem withIdx_map_fst {α : Type} :
    ∀ (l : List α) (i : Nat), (withIdx i l).map Prod.fst = List.range' i l.length := by
  intro l
  induction l with
  | nil => intro i; rfl
  | cons x xs ih => intro i; simp [withIdx, List.range'_succ, ih]

theorem m3uLoop_all_ok (net : String → UrlEvent) :
    ∀ (channels : List ChannelRecord) (i : Nat),
      (∀ c ∈ channels, ∃ a, findActive net c.stream = some a ∧ a ≠ "") →
      (m3uLoop net channels i).1 =
        concatAll ((withIdx i channels).map
          (fun p => extinfLine p.1 p.2.title ((findActive net p.2.stream).getD ""))) := by
  intro channels
  induction channels with
  | nil => intro i _; rfl
  | cons val rest ih =>
    intro i h
    obtain ⟨a, ha, hane⟩ := h val (List.mem_cons_self _ _)
    have htail := ih (i + 1) (fun c hc => h c (List.mem_cons_of_mem _ hc))
    simp only [m3uLoop, ha, Option.getD_some, if_neg hane, withIdx,
      List.map_cons, concatAll, htail]

/-- **C7, confirmed.** When every channel in the input validates (its candidate
loop selects a stream), the written playlist is exactly one `#EXTM3U` header
line followed by one `#EXTINF`/URL block per channel in input order, and the
indices assigned to the blocks are the zero-based gap-free sequence
`0 .. k-1`. -/
theorem make_m3u_assembles (net : String → UrlEvent) (channels : List ChannelRecord)
    (h : ∀ c ∈ channels, ∃ a, findActive net c.stream = some a ∧ a ≠ "") :
    (make_m3u net channels).1 =
      "#EXTM3U\n" ++ concatAll ((withIdx 0 channels).map
        (fun p => extinfLine p.1 p.2.title ((findActive net p.2.stream).getD ""))) ∧
    (withIdx 0 channels).map Prod.fst = List.range channels.length := by
  constructor
  · show "#EXTM3U\n" ++ (m3uLoop net channels 0).1 = _
    rw [m3uLoop_all_ok net channels 0 h]
  · rw [withIdx_map_fst, List.range_eq_range']

/-- Probe fixture for the assembler claims: `http://one` and `http://two`
answer 200, everything else gets HTTP 404. -/
def demoM3uNet : String → UrlEvent := fun s =>
  if s = "http://one" ∨ s = "http://two" then .success 200 "icecast"
  else .httpError 404 "Not Found"

/-- Witness for C7: two channels that both validate produce the header plus
two blocks with indices 0 and 1. -/
theorem make_m3u_assembles_witness :
    (make_m3u demoM3uNet [⟨"A", ["http://one"]⟩, ⟨"B", ["notaurl", "http://two"]⟩]).1 =
      "#EXTM3U\n#EXTINF: 0, A\nhttp://one\n#EXTINF: 1, B\nhttp://two\n" := by
  rw [(make_m3u_assembles demoM3uNet
    [⟨"A", ["http://one"]⟩, ⟨"B", ["notaurl", "http://two"]⟩]
    (by
      intro c hc
      simp only [List.mem_cons, List.mem_singleton, List.not_mem_nil, or_false] at hc
      rcases hc with rfl | rfl
      · exact ⟨"http://one", by decide, by decide⟩
      · exact ⟨"http://two", by decide, by decide⟩)).1]
  rfl

/-! ## Claim C8: channels with no working candidate are dropped and logged -/

theorem findActive_eq_none_of_all_fail (net : String → UrlEvent) :
    ∀ l : List String, (∀ s ∈ l, ¬ StreamOk net s) → findActive net l = none := by
  intro l
  induction l with
  | nil => intro _; rfl
  | cons s rest ih =>
    intro h
    have hs := h s (List.mem_cons_self _ _)
    have htail := ih (fun b hb => h b (List.mem_cons_of_mem _ hb))
    by_cases hsw : pyStartsWith s "http" = true
    · have hps : ¬ probeStatus net s = 200 := fun hps => hs ⟨hsw, hps⟩
      simp [findActive, hsw, hps, htail]
    · simp [findActive, hsw, htail]

theorem m3uLoop_skip (net : String → UrlEvent) (c : ChannelRecord)
    (h : findActive net c.stream = none) :
    ∀ (pre post : List ChannelRecord) (i : Nat),
      (m3uLoop net (pre ++ c :: post) i).1 = (m3uLoop net (pre ++ post) i).1 ∧
      ("[-] ERROR: " ++ c.title) ∈ (m3uLoop net (pre ++ c :: post) i).2 := by
  intro pre
  induction pre with
  | nil =>
    intro post i
    exact ⟨by simp [m3uLoop, h], by simp [m3uLoop, h]⟩
  | cons d pre ih =>
    intro post i
    by_cases hd : (findActive net d.stream).getD "" = ""
    · refine ⟨?_, ?_⟩
      · simp only [List.cons_append, m3uLoop, if_pos hd]
        exact (ih post i).1
      · simp only [List.cons_append, m3uLoop, if_pos hd]
        exact List.mem_cons_of_mem _ (ih post i).2
    · refine ⟨?_, ?_⟩
      · simp only [List.cons_append, m3uLoop, if_neg hd]
        exact congrArg (extinfLine i d.title ((findActive net d.stream).getD "") ++ ·)
          (ih post (i + 1)).1
      · simp only [List.cons_append, m3uLoop, if_neg hd]
        exact (ih post (i + 1)).2

/-- **C8, confirmed.** A channel none of whose candidates probes successfully
contributes no entry to the playlist — the file text equals the text produced
with that channel removed from the input, wherever it sits — and its drop is
printed as `[-] ERROR: <title>`; the remaining channels are still processed
(non-fatal). -/
theorem make_m3u_drops_failed (net : String → UrlEvent) (c : ChannelRecord)
    (pre post : List ChannelRecord) (h : ∀ s ∈ c.stream, ¬ StreamOk net s) :
    (make_m3u net (pre ++ c :: post)).1 = (make_m3u net (pre ++ post)).1 ∧
    ("[-] ERROR: " ++ c.title) ∈ (make_m3u net (pre ++ c :: post)).2 := by
  have hna := findActive_eq_none_of_all_fail net c.stream h
  obtain ⟨h1, h2⟩ := m3uLoop_skip net c hna pre post 0
  constructor
  · show "#EXTM3U\n" ++ _ = "#EXTM3U\n" ++ _
    rw [h1]
  · exact h2

/-- Witness for C8: channel `Dead` (one non-URL candidate, one 404 candidate)
is dropped from the playlist and logged, while channel `A` before it is kept. -/
theorem make_m3u_drops_failed_witness :
    (make_m3u demoM3uNet [⟨"A", ["http://one"]⟩, ⟨"Dead", ["ftp://x", "http://down"]⟩]).1 =
      (make_m3u demoM3uNet [⟨"A", ["http://one"]⟩]).1 ∧
    ("[-] ERROR: " ++ "Dead") ∈
      (make_m3u demoM3uNet [⟨"A", ["http://one"]⟩, ⟨"Dead", ["ftp://x", "http://down"]⟩]).2 :=
  make_m3u_drops_failed demoM3uNet ⟨"Dead", ["ftp://x", "http://down"]⟩
    [⟨"A", ["http://one"]⟩] [] (by decide)

/-! ## GenreCatalog: `get_channel_genres_list`

`get_channel_genres_list()` fetches `GROUPS_URL` and runs the CSS selection
`soup.select('ul.channel-groups li a[href]')` over the body.  BeautifulSoup is
external, so the selection result is taken as a parameter: the list of anchor
elements (each with its `href` attribute — present, by the `[href]` selector —
and its text), while `code` is the status `get_page` reported for the fetch. -/

/-- One anchor element matched by `ul.channel-groups li a[href]`. -/
structure Anchor where
  href : String
  text : String
  deriving DecidableEq, Repr

/-- One `{'title': ..., 'url': ...}` dict of the returned genre list. -/
structure GenreEntry where
  title : String
  url : String
  deriving DecidableEq, Repr

/-- The `for gr in groups` loop: skip anchors whose `href` is falsy (empty) or
`'#'`; otherwise append the stripped text and the origin-prefixed URL. -/
def buildGenres : List Anchor → List GenreEntry
  | [] => []
  | gr :: rest =>
    if gr.href = "" ∨ gr.href = "#" then buildGenres rest
    else ⟨pyStrip gr.text, "https://101.ru" ++ gr.href⟩ :: buildGenres rest

/-- `get_channel_genres_list`: `None` when the fetch is not a 200 (the error
is printed) or when the selection matched nothing; otherwise the loop's
result — which may itself be the empty list if every anchor was skipped. -/
def get_channel_genres_list (code : Nat) (groups : List Anchor) :
    Option (List GenreEntry) :=
  if code ≠ 200 then none
  else if groups = [] then none
  else some (buildGenres groups)

theorem charsStartWith_append :
    ∀ p rest : List Char, charsStartWith (p ++ rest) p = true := by
  intro p
  induction p with
  | nil => intro rest; cases rest <;> rfl
  | cons a as ih => intro rest; simp [charsStartWith, ih]

theorem pyStartsWith_append (p s : String) : pyStartsWith (p ++ s) p = true := by
  have hdata : (p ++ s).data = p.data ++ s.data := by
    cases p
    cases s
    rfl
  show charsStartWith (p ++ s).data p.data = true
  rw [hdata]
  exact charsStartWith_append p.data s.data

theorem buildGenres_mem (groups : List Anchor) :
    ∀ e ∈ buildGenres groups, ∃ a ∈ groups, a.href ≠ "" ∧ a.href ≠ "#" ∧
      e = ⟨pyStrip a.text, "https://101.ru" ++ a.href⟩ := by
  induction groups with
  | nil => intro e he; simp [buildGenres] at he
  | cons g rest ih =>
    intro e he
    by_cases hg : g.href = "" ∨ g.href = "#"
    · rw [buildGenres, if_pos hg] at he
      obtain ⟨a, ha, h1, h2, h3⟩ := ih e he
      exact ⟨a, List.mem_cons_of_mem _ ha, h1, h2, h3⟩
    · rw [buildGenres, if_neg hg] at he
      rcases List.mem_cons.1 he with he | he
      · push_neg at hg
        exact ⟨g, List.mem_cons_self _ _, hg.1, hg.2, he⟩
      · obtain ⟨a, ha, h1, h2, h3⟩ := ih e he
        exact ⟨a, List.mem_cons_of_mem _ ha, h1, h2, h3⟩

theorem buildGenres_ne_nil (groups : List Anchor) (a : Anchor) (ha : a ∈ groups)
    (h1 : a.href ≠ "") (h2 : a.href ≠ "#") : buildGenres groups ≠ [] := by
  induction groups with
  | nil => exact absurd ha (List.not_mem_nil a)
  | cons g rest ih =>
    by_cases hg : g.href = "" ∨ g.href = "#"
    · rw [buildGenres, if_pos hg]
      rcases List.mem_cons.1 ha with rfl | ha'
      · exact absurd hg (by push_neg; exact ⟨h1, h2⟩)
      · exact ih ha'
    · rw [buildGenres, if_neg hg]
      exact List.cons_ne_nil _ _

/-- **C9, counterexample.** The claim says every returned entry's title is
non-empty after trimming.  An anchor with a usable `href` but whitespace-only
text is kept (the loop filters only on the link target), producing an entry
whose title is the empty string. -/
theorem get_channel_genres_list_blank_title :
    get_channel_genres_list 200 [⟨"/pop", " "⟩] = some [⟨"", "https://101.ru/pop"⟩] ∧
    pyStrip " " = "" := ⟨rfl, rfl⟩

/-- **C9, amended.** For a genre-listing page fetched with status 200 whose
selection yields at least one anchor with a usable link target (non-empty and
not `'#'`), `get_channel_genres_list` returns a non-empty list in which every
entry's url starts with the site origin `https://101.ru`, every entry's title
is the originating anchor's text with surrounding whitespace stripped — which
may be empty, since only the link target is filtered — and every entry
originates from an anchor whose target is neither empty nor `'#'`. -/
theorem get_channel_genres_list_valid (groups : List Anchor) (a : Anchor)
    (ha : a ∈ groups) (h1 : a.href ≠ "") (h2 : a.href ≠ "#") :
    ∃ l, get_channel_genres_list 200 groups = some l ∧ l ≠ [] ∧
      ∀ e ∈ l, pyStartsWith e.url "https://101.ru" = true ∧
        ∃ g ∈ groups, g.href ≠ "" ∧ g.href ≠ "#" ∧
          e.title = pyStrip g.text ∧ e.url = "https://101.ru" ++ g.href := by
  have hne : groups ≠ [] := by
    intro hnil
    rw [hnil] at ha
    exact absurd ha (List.not_mem_nil a)
  refine ⟨buildGenres groups, ?_, buildGenres_ne_nil groups a ha h1 h2, ?_⟩
  · rw [get_channel_genres_list, if_neg (by simp), if_neg hne]
  · intro e he
    obtain ⟨g, hg, hg1, hg2, hg3⟩ := buildGenres_mem groups e he
    subst hg3
    exact ⟨pyStartsWith_append "https://101.ru" g.href, g, hg, hg1, hg2, rfl, rfl⟩

/-- Witness for the amended C9: a decorative `#` anchor and a real genre
anchor; the output is exactly the one real entry. -/
theorem get_channel_genres_list_valid_witness :
    ∃ l, get_channel_genres_list 200 [⟨"#", "nav"⟩, ⟨"/pop", " Pop "⟩] = some l ∧
      l ≠ [] ∧
      ∀ e ∈ l, pyStartsWith e.url "https://101.ru" = true ∧
        ∃ g ∈ ([⟨"#", "nav"⟩, ⟨"/pop", " Pop "⟩] : List Anchor),
          g.href ≠ "" ∧ g.href ≠ "#" ∧
          e.title = pyStrip g.text ∧ e.url = "https://101.ru" ++ g.href :=
  get_channel_genres_list_valid [⟨"#", "nav"⟩, ⟨"/pop", " Pop "⟩] ⟨"/pop", " Pop "⟩
    (by decide) (by decide) (by decide)

end Py101
